import Mathlib

/-!
# NeuroPulse stream-processing core: shallow embedding and verification

This file embeds the core of the NeuroPulse stream-processing service in
Lean 4 and proves (or refutes) the specification claims about it.

Embedding conventions:
* Python `float`s are modelled as rationals (`ℚ`); all thresholds in the
  source are decimal literals, so the comparisons are faithfully mirrored.
* ISO-8601 timestamp strings are modelled as the `Option ℚ` result of
  parsing them to seconds-since-epoch (`none` = unparseable / absent);
  the source only ever uses timestamps through such a parse.
* Python `Optional[T]` becomes `Option T`.  Python truthiness tests on
  optional values (`if x:`) are embedded explicitly: an `Option Int` is
  truthy iff it is `some n` with `n ≠ 0`, and an optional string is
  truthy iff it is present and non-empty.
* `math.exp` is kept abstract: functions that weight by
  `exp(-age/2)` take the weight curve `w : ℚ → ℚ` as a parameter
  (theorems assume only its positivity, which holds for the real
  exponential).
* Exceptions become explicit result values; external dependency calls
  (Vertex AI / Gemini) enter the model as the outcome parameter of the
  circuit-breaker step and as an abstract emission event in the
  orchestrator, since no claim constrains their payloads.
-/

namespace NeuroPulse

/-! ## Circuit breaker (`circuit_breaker.py`) -/

/-- `CircuitState` enum: CLOSED / OPEN / HALF_OPEN. -/
inductive CircuitState where
  | closed
  | «open»
  | halfOpen
deriving DecidableEq, Repr

/-- `CircuitBreakerConfig` dataclass (defaults 5 / 2 / 60.0). -/
structure CircuitBreakerConfig where
  failure_threshold : Nat := 5
  success_threshold : Nat := 2
  timeout : ℚ := 60
deriving DecidableEq, Repr

/-- Mutable fields of a `CircuitBreaker` instance. -/
structure CircuitBreaker where
  state : CircuitState := CircuitState.closed
  failure_count : Nat := 0
  success_count : Nat := 0
  last_failure_time : Option ℚ := none
deriving DecidableEq, Repr

/-- `CircuitBreaker._on_success`. -/
def onSuccess (cfg : CircuitBreakerConfig) (b : CircuitBreaker) : CircuitBreaker :=
  if b.state = CircuitState.halfOpen then
    let sc := b.success_count + 1
    if sc ≥ cfg.success_threshold then
      { b with state := CircuitState.closed, failure_count := 0, success_count := 0 }
    else
      { b with success_count := sc }
  else
    { b with failure_count := 0 }

/-- `CircuitBreaker._on_failure`; `now` is the value `time.time()` returns. -/
def onFailure (cfg : CircuitBreakerConfig) (now : ℚ) (b : CircuitBreaker) : CircuitBreaker :=
  let b := { b with failure_count := b.failure_count + 1, last_failure_time := some now }
  if b.state = CircuitState.halfOpen then
    { b with state := CircuitState.open, success_count := 0 }
  else if b.failure_count ≥ cfg.failure_threshold then
    { b with state := CircuitState.open }
  else
    b

/-- `CircuitBreaker._should_attempt_reset`. -/
def shouldAttemptReset (cfg : CircuitBreakerConfig) (now : ℚ) (b : CircuitBreaker) : Bool :=
  match b.last_failure_time with
  | none => true
  | some t => now - t ≥ cfg.timeout

/-- Result of one `CircuitBreaker.call`: `rejected` = `CircuitBreakerOpenError`
raised without invoking the wrapped function; `succeeded` / `failed` = the
wrapped function was invoked and returned / raised. -/
inductive CallResult where
  | rejected
  | succeeded
  | failed
deriving DecidableEq, Repr

/-- `CircuitBreaker.call`.  The wrapped function's outcome is the boolean
`ok` (it is consulted only when the call is let through).  Calls are atomic:
the Python service invokes the breaker from a single sequential loop. -/
def cbCall (cfg : CircuitBreakerConfig) (now : ℚ) (ok : Bool) (b : CircuitBreaker) :
    CircuitBreaker × CallResult :=
  if b.state = CircuitState.open then
    if shouldAttemptReset cfg now b then
      let b := { b with state := CircuitState.halfOpen, success_count := 0 }
      if ok then (onSuccess cfg b, CallResult.succeeded)
      else (onFailure cfg now b, CallResult.failed)
    else
      (b, CallResult.rejected)
  else
    if ok then (onSuccess cfg b, CallResult.succeeded)
    else (onFailure cfg now b, CallResult.failed)

/-- Iterated successful calls (used to state the HalfOpen → Closed run). -/
def cbSucceedN (cfg : CircuitBreakerConfig) (now : ℚ) : Nat → CircuitBreaker → CircuitBreaker
  | 0, b => b
  | n + 1, b => cbSucceedN cfg now n (cbCall cfg now true b).1

/-! ## Risk categorization (`StreamProcessor._categorize_risk`) -/

/-- `StreamProcessor._categorize_risk`. -/
def categorizeRisk (stroke_prob : ℚ) (lvo_prob : ℚ) : String :=
  if stroke_prob ≥ 8/10 ∨ lvo_prob ≥ 6/10 then "CRITICAL"
  else if stroke_prob ≥ 6/10 ∨ lvo_prob ≥ 4/10 then "HIGH"
  else if stroke_prob ≥ 3/10 then "MODERATE"
  else "LOW"

/-! ## Trend analyzer (`trend_analyzer.py`)

A vital's time series is a list of `(timestamp-in-seconds, value)` pairs,
exactly the `(self._parse_timestamp(s.timestamp), value)` tuples the
source builds. -/

/-- Stable insertion of one point into a time-sorted list (ties keep the
original relative order, as Python's stable `sorted` does). -/
def insertByTime (x : ℚ × ℚ) : List (ℚ × ℚ) → List (ℚ × ℚ)
  | [] => [x]
  | y :: ys => if x.1 ≤ y.1 then x :: y :: ys else y :: insertByTime x ys

/-- `sorted(values, key=lambda x: x[0])`: stable sort by timestamp. -/
def sortByTime : List (ℚ × ℚ) → List (ℚ × ℚ)
  | [] => []
  | x :: xs => insertByTime x (sortByTime xs)

/-- `TrendAnalyzer._calculate_rate_and_trend`: rate of change per minute
from first to last point, and the trend direction code.  Per the
`TrendFeatures` field documentation the direction code reads
`-1 = worsening, 0 = stable, 1 = improving`. -/
def calcRateAndTrend (values : List (ℚ × ℚ)) : Option ℚ × Option Int :=
  if values.length < 2 then (none, none)
  else
    let vs := sortByTime values
    let timeDiffMin := ((vs.getLastD (0, 0)).1 - (vs.headD (0, 0)).1) / 60
    if timeDiffMin = 0 then (none, none)
    else
      let rate := ((vs.getLastD (0, 0)).2 - (vs.headD (0, 0)).2) / timeDiffMin
      let trend : Int := if |rate| < 1/10 then 0 else if rate > 0 then 1 else -1
      (some rate, some trend)

/-- Reading of the `TrendFeatures` direction codes, per the dataclass
documentation (`-1 = worsening, 0 = stable, 1 = improving`); the
orchestrator's risk factors use the same reading (`gcs_trend == -1` →
"Deteriorating GCS trend", `spo2_trend == -1` → "Declining SpO2 trend"). -/
def trendMeaning (t : Int) : String :=
  if t = -1 then "worsening" else if t = 0 then "stable" else "improving"

/-- `TrendAnalyzer._calculate_recent_change` with the weight curve
`w age = exp(-age / 2)` abstract (`w` is applied to the age in minutes).
`window_minutes` defaults to `5.0` in the source. -/
def calcRecentChange (w : ℚ → ℚ) (values : List (ℚ × ℚ)) (window_minutes : ℚ := 5) :
    Option ℚ :=
  if values.length < 2 then none
  else
    let vs := sortByTime values
    let latest := (vs.getLastD (0, 0)).1
    let recent := vs.filter (fun p => (latest - p.1) / 60 ≤ window_minutes)
    if recent.length < 2 then none
    else
      let totalWeight := (recent.map (fun p => w ((latest - p.1) / 60))).sum
      let weightedSum := (recent.map (fun p => p.2 * w ((latest - p.1) / 60))).sum
      if totalWeight = 0 then none
      else some (weightedSum / totalWeight - (recent.headD (0, 0)).2)

/-- Modelled from the spec: "Recency-weighted delta: weight each point by
exp(−ageMinutes/2), compute the weighted average, subtract the earliest
value" — over the whole reading window, ages measured back from the latest
point, defined as soon as the window holds ≥ 2 points.  (The spec text has
no 5-minute recency filter; this definition exists to compare the spec's
formula with `calcRecentChange` above.) -/
def specRecencyDelta (w : ℚ → ℚ) (values : List (ℚ × ℚ)) : Option ℚ :=
  if values.length < 2 then none
  else
    let vs := sortByTime values
    let latest := (vs.getLastD (0, 0)).1
    let totalWeight := (vs.map (fun p => w ((latest - p.1) / 60))).sum
    let weightedSum := (vs.map (fun p => p.2 * w ((latest - p.1) / 60))).sum
    if totalWeight = 0 then none
    else some (weightedSum / totalWeight - (vs.headD (0, 0)).2)

/-- A `VitalSnapshot` as stored in `TrendAnalyzer.vital_history`. -/
structure VitalSnapshot where
  timestamp : Option ℚ
  heart_rate_bpm : Option Int := none
  systolic_bp_mmHg : Option Int := none
  diastolic_bp_mmHg : Option Int := none
  spo2_pct : Option Int := none
  gcs_total : Option Int := none
deriving DecidableEq, Repr

/-- `TrendAnalyzer.add_vital_snapshot` acting on one case's history list:
append, then keep only the most recent `max_history_size` entries.
(The `StreamProcessor` constructs its analyzer with `max_history_size = 20`.) -/
def addVitalSnapshot (max_history_size : Nat) (history : List VitalSnapshot)
    (snapshot : VitalSnapshot) : List VitalSnapshot :=
  let h := history ++ [snapshot]
  if h.length > max_history_size then
    h.drop (h.length - max_history_size)
  else
    h

/-- `TrendAnalyzer._parse_timestamp`: parsed seconds-since-epoch, with
parse failure mapped to `0.0` as in the source (`except: return 0.0`). -/
def parseTimestamp (timestamp : Option ℚ) : ℚ := timestamp.getD 0

/-- One comprehension of `calculate_trends`:
`[(self._parse_timestamp(s.timestamp), value(s)) for s in history if value(s) is not None]`. -/
def vitalSeries (history : List VitalSnapshot) (value : VitalSnapshot → Option Int) :
    List (ℚ × ℚ) :=
  history.filterMap (fun s => (value s).map (fun v => (parseTimestamp s.timestamp, (v : ℚ))))

/-- The trend-direction components of `TrendAnalyzer.calculate_trends`
for one case history: `(hr_trend, bp_trend, spo2_trend, gcs_trend)`.
Each tracked vital's series is fed to the one shared helper
`_calculate_rate_and_trend`; the other `TrendFeatures` fields (rates,
volatility, recent change) are modelled separately. -/
def calculateTrendDirections (history : List VitalSnapshot) :
    Option Int × Option Int × Option Int × Option Int :=
  if history.length < 2 then (none, none, none, none)
  else
    let hr_values := vitalSeries history (·.heart_rate_bpm)
    let bp_values := vitalSeries history (·.systolic_bp_mmHg)
    let spo2_values := vitalSeries history (·.spo2_pct)
    let gcs_values := vitalSeries history (·.gcs_total)
    (if 2 ≤ hr_values.length then (calcRateAndTrend hr_values).2 else none,
     if 2 ≤ bp_values.length then (calcRateAndTrend bp_values).2 else none,
     if 2 ≤ spo2_values.length then (calcRateAndTrend spo2_values).2 else none,
     if 2 ≤ gcs_values.length then (calcRateAndTrend gcs_values).2 else none)

/-! ## Inbound event payloads (data-generator dataclasses) -/

/-- Python truthiness of an optional integer (`if x:`). -/
def truthyInt : Option Int → Bool
  | none => false
  | some n => n != 0

/-- Python truthiness of an optional string (`if x:`). -/
def truthyStr : Option String → Bool
  | none => false
  | some s => s != ""

/-- `EmsVitalsEvent` (a "Reading"); timestamps carry their parsed value. -/
structure EmsVitalsEvent where
  case_id : String
  patient_id : String := ""
  ems_unit_id : String := ""
  event_ts : Option ℚ := none
  sequence_number : Int := 0
  heart_rate_bpm : Option Int := none
  systolic_bp_mmHg : Option Int := none
  diastolic_bp_mmHg : Option Int := none
  respiratory_rate_bpm : Option Int := none
  spo2_pct : Option Int := none
  temperature_c : Option ℚ := none
  gcs_total : Option Int := none
  blood_glucose_mg_dL : Option Int := none
  ecg_rhythm : Option String := none
  is_artifact_suspected : Bool := false
  source_device : Option String := none
deriving DecidableEq, Repr

/-- `EmsFastExamEvent` (a "ScreeningResult"). -/
structure EmsFastExamEvent where
  case_id : String
  patient_id : String := ""
  ems_unit_id : String := ""
  exam_ts : Option ℚ := none
  face_droop : String := "UNKNOWN"
  arm_weakness : String := "UNKNOWN"
  speech_difficulty : String := "UNKNOWN"
  symptom_onset_ts : Option ℚ := none
  last_known_well_ts : Option ℚ := none
  prestroke_disability : Option Int := none
  suspected_stroke_side : Option String := none
  fast_score : Option Int := none
  ems_suspected_stroke : Bool := true
  notes : Option String := none
deriving DecidableEq, Repr

/-- `HospitalCapacityEvent` (a "CapacitySnapshot"). -/
structure HospitalCapacityEvent where
  hospital_id : String
  hospital_name : String := ""
  updated_ts : Option ℚ := none
  latitude : ℚ := 0
  longitude : ℚ := 0
  stroke_center_level : String
  has_ct_available : Bool := true
  has_cta_available : Bool := true
  can_perform_mechanical_thrombectomy : Bool := false
  ed_crowding_score : Option Int := none
  current_stroke_cases_in_ed : Option Int := none
  accepting_acute_stroke_now : Bool := true
  estimated_additional_door_to_needle_minutes : Option Int := none
  notes : Option String := none
deriving DecidableEq, Repr

/-- `AiPredictionRequest` (the "FeatureVector"). -/
structure AiPredictionRequest where
  case_id : String
  patient_id : String := ""
  ems_unit_id : String := ""
  age_years : Option Int := none
  sex : Option String := none
  heart_rate_bpm : Option Int := none
  systolic_bp_mmHg : Option Int := none
  diastolic_bp_mmHg : Option Int := none
  respiratory_rate_bpm : Option Int := none
  spo2_pct : Option Int := none
  gcs_total : Option Int := none
  blood_glucose_mg_dL : Option Int := none
  face_droop_present : Bool := false
  arm_weakness_any : Bool := false
  speech_abnormal_any : Bool := false
  fast_score : Option Int := none
  minutes_since_symptom_onset : Option Int := none
  minutes_since_last_known_well : Option Int := none
  distance_km_to_nearest_primary_center : Option ℚ := none
  distance_km_to_nearest_comprehensive_center : Option ℚ := none
  estimated_travel_min_to_primary_center : Option Int := none
  estimated_travel_min_to_comprehensive_center : Option Int := none
  primary_center_additional_door_to_needle_min : Option Int := none
  comprehensive_center_additional_door_to_needle_min : Option Int := none
  ems_suspected_stroke : Bool := true
  ems_suspected_lvo : Bool := false
  features_version : String := "v1"
deriving DecidableEq, Repr

/-! ## Heuristic fallback predictor (`vertex_ai_service._heuristic_predict`) -/

/-- `max(0.0, min(1.0, x))`: the probability clamp at the end of
`_heuristic_predict`. -/
def clamp01 (x : ℚ) : ℚ := max 0 (min 1 x)

/-- The accumulation phase of `_heuristic_predict` before the final clamp:
starts from the base probabilities and adds the clinical-rule increments.
The decimal weights of the source are written as exact rationals
(0.2 = 1/5, 0.05 = 1/20, 0.15 = 3/20, 0.12 = 3/25, 0.10 = 1/10,
0.08 = 2/25). -/
def heuristicRaw (request : AiPredictionRequest) : ℚ × ℚ :=
  let base_stroke : ℚ := 1/5
  let base_lvo : ℚ := 1/20
  -- `if request.fast_score:` (truthiness) … `if request.fast_score >= 2:`
  let base_stroke :=
    match request.fast_score with
    | some fs => if fs ≠ 0 then base_stroke + (1/5) * ((min fs 3 : ℤ) : ℚ) / 3 else base_stroke
    | none => base_stroke
  let base_lvo :=
    match request.fast_score with
    | some fs => if fs ≠ 0 ∧ 2 ≤ fs then base_lvo + 3/20 else base_lvo
    | none => base_lvo
  let base_stroke := if request.face_droop_present then base_stroke + 3/20 else base_stroke
  let base_stroke := if request.arm_weakness_any then base_stroke + 3/25 else base_stroke
  let base_lvo := if request.arm_weakness_any then base_lvo + 3/25 else base_lvo
  let base_stroke := if request.speech_abnormal_any then base_stroke + 1/10 else base_stroke
  let base_stroke :=
    match request.minutes_since_symptom_onset with
    | some m => if m ≤ 270 then base_stroke + 2/25
                else if m ≤ 360 then base_stroke + 1/20
                else base_stroke
    | none => base_stroke
  let base_stroke :=
    match request.gcs_total with
    | some g => if g < 15 then base_stroke + 1/10 else base_stroke
    | none => base_stroke
  let base_lvo :=
    match request.gcs_total with
    | some g => if g < 15 ∧ g < 13 then base_lvo + 2/25 else base_lvo
    | none => base_lvo
  let base_stroke :=
    match request.systolic_bp_mmHg with
    | some sbp => if sbp > 180 then base_stroke + 1/20 else base_stroke
    | none => base_stroke
  (base_stroke, base_lvo)

/-- `_heuristic_predict`: clinical-rule fallback returning
`(stroke_probability, lvo_probability)`, both clamped to `[0, 1]`. -/
def heuristicPredict (request : AiPredictionRequest) : ℚ × ℚ :=
  (clamp01 (heuristicRaw request).1, clamp01 (heuristicRaw request).2)

/-! ## Hospital routing (`StreamProcessor._choose_hospital`) -/

/-- `StreamProcessor._choose_hospital`: returns
`(hospital_id, hospital_type, travel_minutes, door_to_needle_minutes)`.
The Python conditions `if request.ems_suspected_lvo and comp_id and
comp_travel:` and `if primary_id:` test truthiness, so an empty
identifier string or a zero travel estimate behaves like an absent one. -/
def chooseHospital (request : AiPredictionRequest)
    (capacity_events : List HospitalCapacityEvent) :
    Option String × Option String × Option Int × Option Int :=
  let primary := capacity_events.find? (fun c => c.stroke_center_level == "PRIMARY")
  let comp := capacity_events.find? (fun c => c.stroke_center_level == "COMPREHENSIVE")
  let primary_id := primary.map (·.hospital_id)
  let comp_id := comp.map (·.hospital_id)
  let primary_travel := request.estimated_travel_min_to_primary_center
  let comp_travel := request.estimated_travel_min_to_comprehensive_center
  let primaryFallback : Option String × Option String × Option Int × Option Int :=
    if truthyStr primary_id then
      (primary_id, some "PRIMARY_CENTER", primary_travel,
        request.primary_center_additional_door_to_needle_min)
    else
      (none, none, none, none)
  if request.ems_suspected_lvo && truthyStr comp_id && truthyInt comp_travel then
    if (match primary_travel with
        | none => true
        | some pt => decide (comp_travel.getD 0 ≤ pt + 15)) then
      (comp_id, some "COMPREHENSIVE_CENTER", comp_travel,
        request.comprehensive_center_additional_door_to_needle_min)
    else
      primaryFallback
  else
    primaryFallback

/-! ## Orchestrator (`StreamProcessor`) -/

/-- `_minutes_between`: floor of the minute difference, `none` when either
timestamp is absent or unparseable. -/
def minutesBetween (start stop : Option ℚ) : Option Int :=
  match start, stop with
  | some s, some e => some ⌊(e - s) / 60⌋
  | _, _ => none

/-- `StreamProcessor._build_prediction_request`: the feature vector built
from the case's current reading, screening result and the shared capacity
cache; `none` exactly when the screening result is missing. -/
def buildPredictionRequest (vitals : EmsVitalsEvent)
    (fast_exam : Option EmsFastExamEvent)
    (capacity_events : List HospitalCapacityEvent) : Option AiPredictionRequest :=
  match fast_exam with
  | none => none
  | some fe =>
    let now_iso := vitals.event_ts
    let primary := capacity_events.find? (fun c => c.stroke_center_level == "PRIMARY")
    let comp := capacity_events.find? (fun c => c.stroke_center_level == "COMPREHENSIVE")
    some {
      case_id := vitals.case_id
      patient_id := vitals.patient_id
      ems_unit_id := vitals.ems_unit_id
      age_years := some 68
      sex := some "FEMALE"
      heart_rate_bpm := vitals.heart_rate_bpm
      systolic_bp_mmHg := vitals.systolic_bp_mmHg
      diastolic_bp_mmHg := vitals.diastolic_bp_mmHg
      respiratory_rate_bpm := vitals.respiratory_rate_bpm
      spo2_pct := vitals.spo2_pct
      gcs_total := vitals.gcs_total
      blood_glucose_mg_dL := vitals.blood_glucose_mg_dL
      face_droop_present := fe.face_droop == "PRESENT"
      arm_weakness_any := fe.arm_weakness == "LEFT" || fe.arm_weakness == "RIGHT"
        || fe.arm_weakness == "BILATERAL"
      speech_abnormal_any := fe.speech_difficulty == "DYSARTHRIA"
        || fe.speech_difficulty == "APHASIA_SUSPECTED"
      fast_score := fe.fast_score
      minutes_since_symptom_onset := minutesBetween fe.symptom_onset_ts now_iso
      minutes_since_last_known_well := minutesBetween fe.last_known_well_ts now_iso
      distance_km_to_nearest_primary_center := some 5
      distance_km_to_nearest_comprehensive_center := some 12
      estimated_travel_min_to_primary_center := some 8
      estimated_travel_min_to_comprehensive_center := some 15
      primary_center_additional_door_to_needle_min :=
        primary.bind (·.estimated_additional_door_to_needle_minutes)
      comprehensive_center_additional_door_to_needle_min :=
        comp.bind (·.estimated_additional_door_to_needle_minutes)
      ems_suspected_stroke := fe.ems_suspected_stroke
      ems_suspected_lvo := truthyInt fe.fast_score && decide (2 ≤ fe.fast_score.getD 0)
      features_version := "v1"
    }

/-- In-memory state of the `StreamProcessor` (the per-case latest-value
caches, the shared capacity cache, the processed-case set, and the trend
analyzer's per-case history). -/
structure ProcState where
  latest_vitals : String → Option EmsVitalsEvent
  latest_fast_exam : String → Option EmsFastExamEvent
  latest_capacity : List HospitalCapacityEvent
  processed_cases : String → Bool
  vital_history : String → List VitalSnapshot

/-- State at `StreamProcessor.__init__`: all caches empty. -/
def initState : ProcState where
  latest_vitals := fun _ => none
  latest_fast_exam := fun _ => none
  latest_capacity := []
  processed_cases := fun _ => false
  vital_history := fun _ => []

/-- `StreamProcessor._process_case`.  Returns the new state and the case
ids for which a prediction was built and published in this call (the
trend features are read, the breaker-protected prediction / explanation
dependencies are invoked and the assembled `AiPredictionResponse` is
published exactly when the returned list is nonempty; none of that
mutates the orchestrator state beyond `processed_cases`). -/
def processCase (s : ProcState) (case_id : String) : ProcState × List String :=
  if s.processed_cases case_id then (s, [])
  else
    match s.latest_vitals case_id with
    | none => (s, [])
    | some vitals =>
      match s.latest_fast_exam case_id with
      | none => (s, [])
      | some fe =>
        match buildPredictionRequest vitals (some fe) s.latest_capacity with
        | none => (s, [])
        | some _request =>
          ({ s with processed_cases := fun c => if c = case_id then true else s.processed_cases c },
            [case_id])

/-- One decoded, dispatched inbound event of `StreamProcessor.run`. -/
inductive StreamEvent where
  | reading : EmsVitalsEvent → StreamEvent
  | screening : EmsFastExamEvent → StreamEvent
  | capacity : HospitalCapacityEvent → StreamEvent

/-- One iteration of the `StreamProcessor.run` loop on a successfully
parsed message, returning the new state and the evaluations emitted.
Mirrors the per-topic branches: a vitals message updates `latest_vitals`
(discarding the case from `processed_cases` first when it was already
processed) and calls `_process_case`; a FAST-exam message updates
`latest_fast_exam`, calls `_process_case` when vitals are present, then
reaches the bottom-of-loop `_process_case` as well; a capacity message
upserts the shared cache and — since it sets no `case_id` — never reaches
the bottom-of-loop `_process_case`. -/
def stepEvent (s : ProcState) (e : StreamEvent) : ProcState × List String :=
  match e with
  | StreamEvent.reading v =>
    let cid := v.case_id
    let is_update := s.processed_cases cid
    let s := { s with latest_vitals := fun c => if c = cid then some v else s.latest_vitals c }
    if is_update then
      let s := { s with processed_cases := fun c => if c = cid then false else s.processed_cases c }
      processCase s cid
    else
      processCase s cid
  | StreamEvent.screening f =>
    let cid := f.case_id
    let s := { s with latest_fast_exam := fun c => if c = cid then some f else s.latest_fast_exam c }
    let r1 := if (s.latest_vitals cid).isSome then processCase s cid else (s, [])
    let r2 := processCase r1.1 cid
    (r2.1, r1.2 ++ r2.2)
  | StreamEvent.capacity cap =>
    let s := { s with latest_capacity :=
      (s.latest_capacity.filter (fun c => c.hospital_id != cap.hospital_id)) ++ [cap] }
    (s, [])

/-- The `run` loop over a finite inbound sequence, collecting all
emitted evaluations in order. -/
def runEvents : ProcState → List StreamEvent → ProcState × List String
  | s, [] => (s, [])
  | s, e :: es =>
    let r := stepEvent s e
    let rest := runEvents r.1 es
    (rest.1, r.2 ++ rest.2)

/-- A processor state reachable from start-up by some inbound sequence. -/
def Reachable (s : ProcState) : Prop :=
  ∃ events, (runEvents initState events).1 = s

/-- Constant weight curve used for concrete evaluations of the
recency-weighted delta (the code's filtering behaviour does not depend on
the curve). -/
def wOne : ℚ → ℚ := fun _ => 1

/-- A two-point vital series whose points lie 10 minutes apart. -/
def tenMinutesApart : List (ℚ × ℚ) := [(0, 10), (600, 20)]

/-- A minimal ready state: one case with a current reading and screening
result, an empty capacity cache, nothing processed. -/
def sReady : ProcState where
  latest_vitals := fun c => if c = "CASE-1" then some { case_id := "CASE-1" } else none
  latest_fast_exam := fun c => if c = "CASE-1" then some { case_id := "CASE-1" } else none
  latest_capacity := []
  processed_cases := fun _ => false
  vital_history := fun _ => []

/-- The exact condition under which `_choose_hospital` selects the
comprehensive centre (the amended claim's guard): LVO suspicion set, a
comprehensive facility found with a truthy (non-empty) identifier, a
truthy (present and nonzero) comprehensive travel estimate, and the
travel estimate within the primary's + 15 (or the primary's unknown). -/
def routesToComprehensive (request : AiPredictionRequest)
    (capacity_events : List HospitalCapacityEvent) : Bool :=
  request.ems_suspected_lvo &&
  truthyStr ((capacity_events.find?
    (fun c => c.stroke_center_level == "COMPREHENSIVE")).map (·.hospital_id)) &&
  truthyInt request.estimated_travel_min_to_comprehensive_center &&
  (match request.estimated_travel_min_to_primary_center with
   | none => true
   | some pt =>
     decide (request.estimated_travel_min_to_comprehensive_center.getD 0 ≤ pt + 15))

/-- A request with the LVO flag set and a comprehensive travel estimate
of 0 minutes (present but falsy for Python truthiness). -/
def reqZeroCompTravel : AiPredictionRequest :=
  { case_id := "CASE-6", ems_suspected_lvo := true,
    estimated_travel_min_to_primary_center := some 8,
    estimated_travel_min_to_comprehensive_center := some 0 }

def twoTierCaps : List HospitalCapacityEvent :=
  [{ hospital_id := "HOSP-PRIMARY-01", stroke_center_level := "PRIMARY" },
   { hospital_id := "HOSP-COMP-01", stroke_center_level := "COMPREHENSIVE" }]

/-- The same request with a truthy 15-minute comprehensive estimate. -/
def reqLvoCompTravel : AiPredictionRequest :=
  { case_id := "CASE-6B", ems_suspected_lvo := true,
    estimated_travel_min_to_primary_center := some 8,
    estimated_travel_min_to_comprehensive_center := some 15 }

/-- Two snapshots one minute apart on which every tracked vital falls. -/
def fallingSnapshots : List VitalSnapshot :=
  [{ timestamp := some 0, heart_rate_bpm := some 120, systolic_bp_mmHg := some 180,
     spo2_pct := some 99, gcs_total := some 15 },
   { timestamp := some 60, heart_rate_bpm := some 90, systolic_bp_mmHg := some 150,
     spo2_pct := some 94, gcs_total := some 12 }]

/-- Two snapshots one minute apart on which every tracked vital rises. -/
def risingSnapshots : List VitalSnapshot :=
  [{ timestamp := some 0, heart_rate_bpm := some 90, systolic_bp_mmHg := some 150,
     spo2_pct := some 94, gcs_total := some 12 },
   { timestamp := some 60, heart_rate_bpm := some 120, systolic_bp_mmHg := some 180,
     spo2_pct := some 99, gcs_total := some 15 }]

/-! ## Verification -/

/-- C4: Risk categorization is a pure function of
`(stroke_probability, lvo_probability)`: CRITICAL iff stroke ≥ 0.8 or
lvo ≥ 0.6; else HIGH iff stroke ≥ 0.6 or lvo ≥ 0.4; else MODERATE iff
stroke ≥ 0.3; else LOW; and stroke = 0.82, lvo = 0.1 yields CRITICAL. -/
theorem categorizeRisk_thresholds (stroke lvo : ℚ) :
    (categorizeRisk stroke lvo = "CRITICAL" ↔ (8/10 ≤ stroke ∨ 6/10 ≤ lvo)) ∧
    (categorizeRisk stroke lvo = "HIGH" ↔
      (¬(8/10 ≤ stroke ∨ 6/10 ≤ lvo) ∧ (6/10 ≤ stroke ∨ 4/10 ≤ lvo))) ∧
    (categorizeRisk stroke lvo = "MODERATE" ↔
      (¬(8/10 ≤ stroke ∨ 6/10 ≤ lvo) ∧ ¬(6/10 ≤ stroke ∨ 4/10 ≤ lvo) ∧ 3/10 ≤ stroke)) ∧
    (categorizeRisk stroke lvo = "LOW" ↔
      (¬(8/10 ≤ stroke ∨ 6/10 ≤ lvo) ∧ ¬(6/10 ≤ stroke ∨ 4/10 ≤ lvo) ∧ ¬(3/10 ≤ stroke))) ∧
    categorizeRisk (82/100) (1/10) = "CRITICAL" := by
  refine ⟨?_, ?_, ?_, ?_, by norm_num [categorizeRisk]⟩ <;>
    · unfold categorizeRisk
      split_ifs <;> simp_all

/-- Closed-state success: the consecutive-failure counter is reset. -/
lemma cbCall_closed_success (cfg : CircuitBreakerConfig) (now : ℚ) (b : CircuitBreaker)
    (hb : b.state = CircuitState.closed) :
    cbCall cfg now true b = ({ b with failure_count := 0 }, CallResult.succeeded) := by
  simp [cbCall, onSuccess, hb]

/-- Closed-state failure below the threshold: count and failure time move,
the breaker stays Closed. -/
lemma cbCall_closed_failure_stay (cfg : CircuitBreakerConfig) (now : ℚ) (b : CircuitBreaker)
    (hb : b.state = CircuitState.closed) (hlt : b.failure_count + 1 < cfg.failure_threshold) :
    cbCall cfg now false b =
      ({ b with failure_count := b.failure_count + 1, last_failure_time := some now },
        CallResult.failed) := by
  simp [cbCall, onFailure, hb]
  omega

/-- Closed-state failure reaching the threshold: the breaker opens with the
failure time recorded. -/
lemma cbCall_closed_failure_opens (cfg : CircuitBreakerConfig) (now : ℚ) (b : CircuitBreaker)
    (hb : b.state = CircuitState.closed) (hge : cfg.failure_threshold ≤ b.failure_count + 1) :
    cbCall cfg now false b =
      ({ b with state := CircuitState.open, failure_count := b.failure_count + 1,
                last_failure_time := some now }, CallResult.failed) := by
  simp [cbCall, onFailure, hb]
  omega

/-- Open before the timeout: every call is rejected and the state is
untouched, whatever the wrapped operation would have done. -/
lemma cbCall_open_rejected (cfg : CircuitBreakerConfig) (now t : ℚ) (ok : Bool)
    (b : CircuitBreaker) (hb : b.state = CircuitState.open)
    (hlf : b.last_failure_time = some t) (htime : now - t < cfg.timeout) :
    cbCall cfg now ok b = (b, CallResult.rejected) := by
  simp [cbCall, shouldAttemptReset, hb, hlf, not_le.mpr htime]

/-- Open with the timeout elapsed, failing probe: the breaker reopens with
the new failure time and a zero success counter. -/
lemma cbCall_open_elapsed_failure (cfg : CircuitBreakerConfig) (now t : ℚ)
    (b : CircuitBreaker) (hb : b.state = CircuitState.open)
    (hlf : b.last_failure_time = some t) (htime : cfg.timeout ≤ now - t) :
    cbCall cfg now false b =
      ({ b with state := CircuitState.open, failure_count := b.failure_count + 1,
                success_count := 0, last_failure_time := some now }, CallResult.failed) := by
  simp [cbCall, onFailure, shouldAttemptReset, hb, hlf, htime]

/-- Open with the timeout elapsed, succeeding probe (threshold ≥ 2): the
breaker is HalfOpen with one recorded success. -/
lemma cbCall_open_elapsed_success (cfg : CircuitBreakerConfig) (now t : ℚ)
    (b : CircuitBreaker) (hb : b.state = CircuitState.open)
    (hlf : b.last_failure_time = some t) (htime : cfg.timeout ≤ now - t)
    (hth : 2 ≤ cfg.success_threshold) :
    cbCall cfg now true b =
      ({ b with state := CircuitState.halfOpen, success_count := 1 },
        CallResult.succeeded) := by
  simp [cbCall, onSuccess, shouldAttemptReset, hb, hlf, htime]
  omega

/-- HalfOpen success below the threshold: the success counter advances. -/
lemma cbCall_halfOpen_success (cfg : CircuitBreakerConfig) (now : ℚ) (b : CircuitBreaker)
    (hb : b.state = CircuitState.halfOpen) (hlt : b.success_count + 1 < cfg.success_threshold) :
    cbCall cfg now true b =
      ({ b with success_count := b.success_count + 1 }, CallResult.succeeded) := by
  simp [cbCall, onSuccess, hb]
  omega

/-- HalfOpen success reaching the threshold: the breaker closes with both
counters reset. -/
lemma cbCall_halfOpen_success_close (cfg : CircuitBreakerConfig) (now : ℚ) (b : CircuitBreaker)
    (hb : b.state = CircuitState.halfOpen) (hge : cfg.success_threshold ≤ b.success_count + 1) :
    cbCall cfg now true b =
      ({ b with state := CircuitState.closed, failure_count := 0, success_count := 0 },
        CallResult.succeeded) := by
  simp [cbCall, onSuccess, hb]
  omega

/-- HalfOpen failure: the breaker reopens at once. -/
lemma cbCall_halfOpen_failure (cfg : CircuitBreakerConfig) (now : ℚ) (b : CircuitBreaker)
    (hb : b.state = CircuitState.halfOpen) :
    cbCall cfg now false b =
      ({ b with state := CircuitState.open, failure_count := b.failure_count + 1,
                success_count := 0, last_failure_time := some now }, CallResult.failed) := by
  simp [cbCall, onFailure, hb]

/-- A HalfOpen success run below the threshold keeps the breaker HalfOpen
with the success counter tracking the run. -/
lemma cbSucceedN_halfOpen_below (cfg : CircuitBreakerConfig) (now : ℚ) :
    ∀ (k : Nat) (b : CircuitBreaker), b.state = CircuitState.halfOpen →
      b.success_count + k < cfg.success_threshold →
      cbSucceedN cfg now k b = { b with success_count := b.success_count + k } := by
  intro k
  induction k with
  | zero => intro b hb _; simp [cbSucceedN]
  | succ n ih =>
    intro b hb hlt
    show cbSucceedN cfg now n (cbCall cfg now true b).1 = _
    rw [cbCall_halfOpen_success cfg now b hb (by omega)]
    rw [ih { b with success_count := b.success_count + 1 } hb (by simp; omega)]
    simp
    omega

/-- From HalfOpen with the counter at zero, exactly `success_threshold`
consecutive successes close the breaker and reset both counters. -/
lemma cbSucceedN_halfOpen_closes (cfg : CircuitBreakerConfig) (now : ℚ)
    (b : CircuitBreaker) (hb : b.state = CircuitState.halfOpen)
    (hz : b.success_count = 0) (hpos : 1 ≤ cfg.success_threshold) :
    cbSucceedN cfg now cfg.success_threshold b =
      { b with state := CircuitState.closed, failure_count := 0, success_count := 0 } := by
  obtain ⟨m, hm⟩ : ∃ m, cfg.success_threshold = m + 1 := ⟨cfg.success_threshold - 1, by omega⟩
  have hsplit : ∀ (j : Nat) (c : CircuitBreaker), cbSucceedN cfg now (j + 1) c =
      (cbCall cfg now true (cbSucceedN cfg now j c)).1 := by
    intro j
    induction j with
    | zero => intro c; rfl
    | succ i ih => intro c; exact ih (cbCall cfg now true c).1
  rw [hm, hsplit, cbSucceedN_halfOpen_below cfg now m b hb (by omega)]
  rw [cbCall_halfOpen_success_close cfg now
    { b with success_count := b.success_count + m } hb (by simp [hz]; omega)]

/-- C4 witness: the spec's example pair evaluated through the threshold
characterization. -/
theorem categorizeRisk_thresholds_witness :
    categorizeRisk (82/100) (1/10) = "CRITICAL" :=
  (categorizeRisk_thresholds (82/100) (1/10)).2.2.2.2

/-- C7: in Closed, a success resets the consecutive-failure counter and a
failure increments it, opening the breaker (and recording the failure
time) exactly when `failure_threshold` is reached; while Open before
`timeout` has elapsed since the last failure, every call is rejected with
the distinguished breaker-open error, the wrapped operation is not
invoked (the outcome parameter is irrelevant), and the state is
unchanged. -/
theorem circuitBreaker_closed_counts_open_fastfail
    (cfg : CircuitBreakerConfig) (b : CircuitBreaker) (now t : ℚ) :
    (b.state = CircuitState.closed →
      cbCall cfg now true b = ({ b with failure_count := 0 }, CallResult.succeeded)) ∧
    (b.state = CircuitState.closed → b.failure_count + 1 < cfg.failure_threshold →
      cbCall cfg now false b =
        ({ b with failure_count := b.failure_count + 1, last_failure_time := some now },
          CallResult.failed)) ∧
    (b.state = CircuitState.closed → cfg.failure_threshold ≤ b.failure_count + 1 →
      cbCall cfg now false b =
        ({ b with state := CircuitState.open, failure_count := b.failure_count + 1,
                  last_failure_time := some now }, CallResult.failed)) ∧
    (b.state = CircuitState.open → b.last_failure_time = some t → now - t < cfg.timeout →
      ∀ ok, cbCall cfg now ok b = (b, CallResult.rejected)) :=
  ⟨fun hb => cbCall_closed_success cfg now b hb,
   fun hb hlt => cbCall_closed_failure_stay cfg now b hb hlt,
   fun hb hge => cbCall_closed_failure_opens cfg now b hb hge,
   fun hb hlf htime ok => cbCall_open_rejected cfg now t ok b hb hlf htime⟩

/-- C7 witness: a breaker with the Vertex AI configuration (threshold 3,
timeout 30) opens on the third consecutive Closed failure, and while Open
10 seconds after that failure every call is rejected with the state
untouched. -/
theorem circuitBreaker_closed_counts_open_fastfail_witness :
    cbCall { failure_threshold := 3, success_threshold := 2, timeout := 30 } 100 false
        { state := CircuitState.closed, failure_count := 2, success_count := 0,
          last_failure_time := some 90 } =
      ({ state := CircuitState.open, failure_count := 3, success_count := 0,
         last_failure_time := some 100 }, CallResult.failed) ∧
    cbCall { failure_threshold := 3, success_threshold := 2, timeout := 30 } 110 true
        { state := CircuitState.open, failure_count := 3, success_count := 0,
          last_failure_time := some 100 } =
      ({ state := CircuitState.open, failure_count := 3, success_count := 0,
         last_failure_time := some 100 }, CallResult.rejected) :=
  ⟨(circuitBreaker_closed_counts_open_fastfail _ _ 100 0).2.2.1 rfl (by norm_num),
   (circuitBreaker_closed_counts_open_fastfail _ _ 110 100).2.2.2 rfl rfl (by norm_num) true⟩

/-- C2: from Open, once `timeout` has elapsed since the last failure the
call is let through as a probe (never rejected); a failed probe reopens
the breaker at once with the new failure time and a zero success counter,
so any call within `timeout` of it is rejected again (no second call
passes after a failed probe); a successful probe leaves the breaker
HalfOpen with one recorded success (success counter having been reset on
the Open → HalfOpen transition); a HalfOpen failure always reopens the
breaker; and from HalfOpen with the counter at zero, `success_threshold`
consecutive successes close the breaker with both counters reset, the
breaker staying HalfOpen with the counter tracking the run until then. -/
theorem circuitBreaker_open_probe_halfopen
    (cfg : CircuitBreakerConfig) (b : CircuitBreaker) (now t : ℚ) :
    (b.state = CircuitState.open → b.last_failure_time = some t → cfg.timeout ≤ now - t →
      (∀ ok, (cbCall cfg now ok b).2 ≠ CallResult.rejected) ∧
      ((cbCall cfg now false b).1 =
          { b with state := CircuitState.open, failure_count := b.failure_count + 1,
                   success_count := 0, last_failure_time := some now } ∧
        ∀ now2 ok2, now2 - now < cfg.timeout →
          cbCall cfg now2 ok2 (cbCall cfg now false b).1 =
            ((cbCall cfg now false b).1, CallResult.rejected)) ∧
      (2 ≤ cfg.success_threshold →
        (cbCall cfg now true b).1 =
          { b with state := CircuitState.halfOpen, success_count := 1 })) ∧
    (b.state = CircuitState.halfOpen →
      cbCall cfg now false b =
        ({ b with state := CircuitState.open, failure_count := b.failure_count + 1,
                  success_count := 0, last_failure_time := some now }, CallResult.failed)) ∧
    (b.state = CircuitState.halfOpen → b.success_count = 0 → 1 ≤ cfg.success_threshold →
      cbSucceedN cfg now cfg.success_threshold b =
        { b with state := CircuitState.closed, failure_count := 0, success_count := 0 } ∧
      ∀ k, k < cfg.success_threshold →
        cbSucceedN cfg now k b = { b with success_count := k }) := by
  refine ⟨?_, fun hb => cbCall_halfOpen_failure cfg now b hb, ?_⟩
  · intro hb hlf htime
    have hfail := cbCall_open_elapsed_failure cfg now t b hb hlf htime
    refine ⟨?_, ⟨?_, ?_⟩, ?_⟩
    · intro ok
      unfold cbCall
      rw [hb]
      simp [shouldAttemptReset, hlf, htime]
      cases ok <;> simp
    · rw [hfail]
    · intro now2 ok2 h2
      rw [hfail]
      exact cbCall_open_rejected cfg now2 now ok2 _ rfl rfl h2
    · intro hth
      rw [cbCall_open_elapsed_success cfg now t b hb hlf htime hth]
  · intro hb hz hpos
    refine ⟨cbSucceedN_halfOpen_closes cfg now b hb hz hpos, fun k hk => ?_⟩
    rw [cbSucceedN_halfOpen_below cfg now k b hb (by omega)]
    simp [hz]

/-- C2 witness: with the Vertex AI configuration (timeout 30, success
threshold 2), a breaker Open since t = 0 lets a probe through at t = 40,
and from HalfOpen two consecutive successes close it with both counters
reset. -/
theorem circuitBreaker_open_probe_halfopen_witness :
    ((cbCall { failure_threshold := 3, success_threshold := 2, timeout := 30 } 40 true
        { state := CircuitState.open, failure_count := 3, success_count := 0,
          last_failure_time := some 0 }).2 ≠ CallResult.rejected) ∧
    (cbSucceedN { failure_threshold := 3, success_threshold := 2, timeout := 30 } 40 2
        { state := CircuitState.halfOpen, failure_count := 3, success_count := 0,
          last_failure_time := some 0 } =
      { state := CircuitState.closed, failure_count := 0, success_count := 0,
        last_failure_time := some 0 }) :=
  ⟨((circuitBreaker_open_probe_halfopen _ _ 40 0).1 rfl rfl (by norm_num)).1 true,
   ((circuitBreaker_open_probe_halfopen
      { failure_threshold := 3, success_threshold := 2, timeout := 30 }
      { state := CircuitState.halfOpen, failure_count := 3, success_count := 0,
        last_failure_time := some 0 } 40 0).2.2 rfl rfl (by norm_num)).1⟩

/-- `sortByTime` is the identity on a list already ordered by timestamp
(readings enter the history in arrival order, which the spec declares
monotone). -/
lemma sortByTime_sorted_id : ∀ {l : List (ℚ × ℚ)},
    l.Chain' (fun a b => a.1 ≤ b.1) → sortByTime l = l := by
  intro l
  induction l with
  | nil => intro _; rfl
  | cons x xs ih =>
    intro h
    show insertByTime x (sortByTime xs) = x :: xs
    rw [ih h.tail]
    cases xs with
    | nil => rfl
    | cons y ys =>
      have hxy : x.1 ≤ y.1 := (List.chain'_cons.mp h).1
      simp [insertByTime, hxy]

/-- C9 counterexample: the direction label is determined by the
thresholded raw sign alone, with no per-vital polarity normalization —
refuting the claim's "the direction label is not determined by the raw
sign alone": `calculate_trends` feeds every tracked vital through the one
shared `_calculate_rate_and_trend`, so on a concrete history where all
four vitals fall, heart rate, systolic pressure, oxygen saturation and
consciousness score all receive the same code -1, and on the reversed
rising history all receive 1 — a rising systolic pressure is coded
"improving" purely from its raw sign. -/
theorem trendDirection_rawSign_counterexample :
    calculateTrendDirections fallingSnapshots =
      (some (-1), some (-1), some (-1), some (-1)) ∧
    calculateTrendDirections risingSnapshots = (some 1, some 1, some 1, some 1) ∧
    trendMeaning 1 = "improving" ∧ trendMeaning (-1) = "worsening" := by
  refine ⟨?_, ?_, rfl, rfl⟩ <;>
    norm_num [calculateTrendDirections, vitalSeries, fallingSnapshots, risingSnapshots,
      parseTimestamp, calcRateAndTrend, sortByTime, insertByTime, List.filterMap_cons,
      Option.some_bind]

/-- C9 (amended): for every vital series with a defined rate, the trend
direction code is stable (0) iff |rate| < 0.1 units/minute, and otherwise
is the thresholded raw sign of the rate — the worsening code (-1) exactly
for falling series and the improving code (1) for rising ones, by one
rule shared by every vital with no per-vital polarity normalization.
Under the `TrendFeatures` convention (-1 = worsening) a falling
oxygen-saturation or consciousness series is therefore still reported
worsening even though its raw delta is negative (the concrete series
drops SpO2 from 99 to 94 over one minute). -/
theorem rateAndTrend_direction (values : List (ℚ × ℚ))
    (hsorted : values.Chain' (fun a b => a.1 ≤ b.1))
    (hlen : 2 ≤ values.length)
    (hne : (values.headD (0, 0)).1 ≠ (values.getLastD (0, 0)).1) :
    (calcRateAndTrend values).1 =
      some (((values.getLastD (0, 0)).2 - (values.headD (0, 0)).2) /
        (((values.getLastD (0, 0)).1 - (values.headD (0, 0)).1) / 60)) ∧
    (∀ rate, (calcRateAndTrend values).1 = some rate →
      ((calcRateAndTrend values).2 = some 0 ↔ |rate| < 1/10) ∧
      (¬ |rate| < 1/10 → rate < 0 →
        (calcRateAndTrend values).2 = some (-1) ∧ trendMeaning (-1) = "worsening") ∧
      (¬ |rate| < 1/10 → 0 < rate →
        (calcRateAndTrend values).2 = some 1 ∧ trendMeaning 1 = "improving")) ∧
    calcRateAndTrend [((0 : ℚ), (99 : ℚ)), (60, 94)] = (some (-5), some (-1)) := by
  have hdiff : ((values.getLastD (0, 0)).1 - (values.headD (0, 0)).1) / 60 ≠ 0 := by
    intro h
    exact hne (by linarith [(div_eq_zero_iff.mp h)])
  have hred : calcRateAndTrend values =
      (some (((values.getLastD (0, 0)).2 - (values.headD (0, 0)).2) /
        (((values.getLastD (0, 0)).1 - (values.headD (0, 0)).1) / 60)),
       some (if |((values.getLastD (0, 0)).2 - (values.headD (0, 0)).2) /
          (((values.getLastD (0, 0)).1 - (values.headD (0, 0)).1) / 60)| < 1/10 then (0 : Int)
        else if ((values.getLastD (0, 0)).2 - (values.headD (0, 0)).2) /
          (((values.getLastD (0, 0)).1 - (values.headD (0, 0)).1) / 60) > 0 then 1 else -1)) := by
    unfold calcRateAndTrend
    rw [if_neg (by omega), sortByTime_sorted_id hsorted, if_neg hdiff]
  refine ⟨by rw [hred], ?_, by norm_num [calcRateAndTrend, sortByTime, insertByTime, trendMeaning]⟩
  intro rate hrate
  rw [hred] at hrate
  have hr : rate = ((values.getLastD (0, 0)).2 - (values.headD (0, 0)).2) /
      (((values.getLastD (0, 0)).1 - (values.headD (0, 0)).1) / 60) := by
    injection hrate with h
    exact h.symm
  subst hr
  rw [hred]
  refine ⟨?_, ?_, ?_⟩
  · split_ifs with h1 h2
    · exact iff_of_true rfl h1
    · exact iff_of_false (by simp) h1
    · exact iff_of_false (by simp) h1
  · intro h1 h2
    rw [if_neg h1, if_neg (by linarith)]
    exact ⟨rfl, by norm_num [trendMeaning]⟩
  · intro h1 h2
    rw [if_neg h1, if_pos h2]
    exact ⟨rfl, by norm_num [trendMeaning]⟩

/-- C9 witness: the falling SpO2 series 99 → 94 over one minute gets the
worsening direction code. -/
theorem rateAndTrend_direction_witness :
    (calcRateAndTrend [((0 : ℚ), (99 : ℚ)), (60, 94)]).2 = some (-1) ∧
    trendMeaning (-1) = "worsening" := by
  have h := rateAndTrend_direction [((0 : ℚ), (99 : ℚ)), (60, 94)]
    (by norm_num [List.chain'_cons, List.chain'_singleton])
    (by norm_num) (by norm_num)
  exact (h.2.1 (-5) (by rw [h.2.2])).2.1 (by norm_num) (by norm_num)

/-- C8 counterexample: a two-point window whose points lie 10 minutes
apart has ≥ 2 points, yet the code's recency-weighted delta is undefined
(`none`) while the claimed formula — the weighted average over the
window's points minus the earliest value — is defined (here 5 with a
constant weight curve; the code returns `none` before ever consulting the
curve, because its 5-minute recency filter leaves a single point). -/
theorem recentChange_outside_window_counterexample :
    2 ≤ tenMinutesApart.length ∧
    wOne 0 = 1 ∧ wOne 10 = 1 ∧
    calcRecentChange wOne tenMinutesApart = none ∧
    specRecencyDelta wOne tenMinutesApart = some 5 := by
  refine ⟨by norm_num [tenMinutesApart], rfl, rfl, ?_, ?_⟩ <;>
    norm_num [calcRecentChange, specRecencyDelta, tenMinutesApart, wOne, sortByTime,
      insertByTime, List.filter]

/-- C8 (amended): the recency-weighted delta is computed on the points
within 5 minutes of the latest point only; whenever ≥ 2 such points
remain, it equals the weighted average of those points (weight curve
applied to the age in minutes) minus the earliest value among them, and
with fewer than 2 such points it is undefined, regardless of how many
points the full window holds. -/
theorem recentChange_characterization (w : ℚ → ℚ) (values : List (ℚ × ℚ))
    (hw : ∀ x, 0 < w x)
    (hsorted : values.Chain' (fun a b => a.1 ≤ b.1))
    (hlen : 2 ≤ values.length) :
    (2 ≤ (values.filter (fun p => ((values.getLastD (0, 0)).1 - p.1) / 60 ≤ 5)).length →
      calcRecentChange w values = some (
        ((values.filter (fun p => ((values.getLastD (0, 0)).1 - p.1) / 60 ≤ 5)).map
            (fun p => p.2 * w (((values.getLastD (0, 0)).1 - p.1) / 60))).sum /
        ((values.filter (fun p => ((values.getLastD (0, 0)).1 - p.1) / 60 ≤ 5)).map
            (fun p => w (((values.getLastD (0, 0)).1 - p.1) / 60))).sum -
        ((values.filter (fun p => ((values.getLastD (0, 0)).1 - p.1) / 60 ≤ 5)).headD (0, 0)).2)) ∧
    ((values.filter (fun p => ((values.getLastD (0, 0)).1 - p.1) / 60 ≤ 5)).length < 2 →
      calcRecentChange w values = none) := by
  constructor
  · intro hrec
    unfold calcRecentChange
    simp only [sortByTime_sorted_id hsorted]
    rw [if_neg (by omega), if_neg (by omega), if_neg ?hnz]
    case hnz =>
      have hne : (values.filter (fun p => ((values.getLastD (0, 0)).1 - p.1) / 60 ≤ 5)).map
          (fun p => w (((values.getLastD (0, 0)).1 - p.1) / 60)) ≠ [] := by
        intro h
        have hlen2 := congrArg List.length h
        rw [List.length_map] at hlen2
        simp only [List.length_nil] at hlen2
        omega
      have hpos : 0 < ((values.filter (fun p => ((values.getLastD (0, 0)).1 - p.1) / 60 ≤ 5)).map
          (fun p => w (((values.getLastD (0, 0)).1 - p.1) / 60))).sum := by
        apply List.sum_pos
        · intro a ha
          simp only [List.mem_map] at ha
          obtain ⟨p, _, hp⟩ := ha
          rw [← hp]
          exact hw _
        · exact hne
      exact ne_of_gt hpos
  · intro hrec
    unfold calcRecentChange
    simp only [sortByTime_sorted_id hsorted]
    rw [if_neg (by omega), if_pos (by omega)]

/-- C8 witness: on a window kept entirely within the 5-minute recency
filter, the recency-weighted delta equals the weighted average minus the
earliest value (both points weighted 1 here: (10+20)/2 − 10 = 5). -/
theorem recentChange_characterization_witness :
    calcRecentChange wOne [((0 : ℚ), 10), (60, 20)] = some 5 := by
  have h := (recentChange_characterization wOne [((0 : ℚ), 10), (60, 20)]
    (fun _ => one_pos) (by norm_num [List.chain'_cons, List.chain'_singleton])
    (by norm_num)).1 (by norm_num [List.filter])
  rw [h]
  norm_num [List.filter, wOne]

/-- C10: the heuristic fallback predictor returns probabilities in
`[0, 1]` and is a deterministic function of the request alone. -/
theorem heuristicPredict_bounded_deterministic (r : AiPredictionRequest) :
    0 ≤ (heuristicPredict r).1 ∧ (heuristicPredict r).1 ≤ 1 ∧
    0 ≤ (heuristicPredict r).2 ∧ (heuristicPredict r).2 ≤ 1 ∧
    ∀ r2 : AiPredictionRequest, r = r2 → heuristicPredict r = heuristicPredict r2 := by
  refine ⟨le_max_left _ _, ?_, le_max_left _ _, ?_, fun r2 h => by rw [h]⟩ <;>
    exact max_le (by norm_num) (min_le_left _ _)

/-- C10 witness: the heuristic predictor evaluated at a concrete request
stays within bounds and is equal to itself on an equal request. -/
theorem heuristicPredict_bounded_deterministic_witness :
    heuristicPredict { case_id := "CASE-10" } = heuristicPredict { case_id := "CASE-10" } ∧
    0 ≤ (heuristicPredict { case_id := "CASE-10" }).1 :=
  ⟨(heuristicPredict_bounded_deterministic { case_id := "CASE-10" }).2.2.2.2 _ rfl,
   (heuristicPredict_bounded_deterministic { case_id := "CASE-10" }).1⟩



lemma processCase_fields (s : ProcState) (c : String) :
    (processCase s c).1.latest_vitals = s.latest_vitals ∧
    (processCase s c).1.latest_fast_exam = s.latest_fast_exam ∧
    (processCase s c).1.latest_capacity = s.latest_capacity ∧
    (processCase s c).1.vital_history = s.vital_history := by
  unfold processCase
  split
  · exact ⟨rfl, rfl, rfl, rfl⟩
  · split
    · exact ⟨rfl, rfl, rfl, rfl⟩
    · split
      · exact ⟨rfl, rfl, rfl, rfl⟩
      · split
        · exact ⟨rfl, rfl, rfl, rfl⟩
        · exact ⟨rfl, rfl, rfl, rfl⟩

lemma processCase_mem (s : ProcState) (c c' : String)
    (h : c' ∈ (processCase s c).2) :
    c' = c ∧ s.processed_cases c = false ∧
    (s.latest_vitals c).isSome ∧ (s.latest_fast_exam c).isSome := by
  unfold processCase at h
  by_cases hp : s.processed_cases c = true
  · rw [if_pos hp] at h
    simp at h
  · rw [if_neg hp] at h
    cases hv : s.latest_vitals c with
    | none => rw [hv] at h; simp at h
    | some vitals =>
      rw [hv] at h
      cases hf : s.latest_fast_exam c with
      | none => rw [hf] at h; simp at h
      | some fe =>
        rw [hf] at h
        simp only [buildPredictionRequest] at h
        simp at h
        exact ⟨h, by simpa using hp, rfl, rfl⟩

lemma processCase_emits (s : ProcState) (c : String)
    (hp : s.processed_cases c = false)
    (hv : (s.latest_vitals c).isSome) (hf : (s.latest_fast_exam c).isSome) :
    (processCase s c).2 = [c] ∧ (processCase s c).1.processed_cases c = true := by
  obtain ⟨v, hv⟩ := Option.isSome_iff_exists.mp hv
  obtain ⟨f, hf⟩ := Option.isSome_iff_exists.mp hf
  unfold processCase
  rw [hp, hv, hf]
  simp [buildPredictionRequest]

lemma processCase_processed_false (s : ProcState) (c x : String)
    (h : (processCase s c).1.processed_cases x = false) :
    s.processed_cases x = false := by
  unfold processCase at h
  split at h
  · exact h
  · split at h
    · exact h
    · split at h
      · exact h
      · split at h
        · exact h
        · simp only [] at h
          by_cases hx : x = c
          · rw [if_pos hx] at h
            cases h
          · rwa [if_neg hx] at h

/-- Invariant: a processed case always has a current screening result. -/
def ProcessedHasScreening (s : ProcState) : Prop :=
  ∀ c, s.processed_cases c = true → (s.latest_fast_exam c).isSome

lemma processCase_keeps_inv (s : ProcState) (c : String)
    (h : ProcessedHasScreening s) : ProcessedHasScreening (processCase s c).1 := by
  intro x hx
  rw [(processCase_fields s c).2.1]
  unfold processCase at hx
  by_cases hp : s.processed_cases c = true
  · rw [if_pos hp] at hx; exact h x hx
  · rw [if_neg hp] at hx
    cases hv : s.latest_vitals c with
    | none => rw [hv] at hx; exact h x hx
    | some vitals =>
      rw [hv] at hx
      cases hf : s.latest_fast_exam c with
      | none => rw [hf] at hx; exact h x hx
      | some fe =>
        by_cases hxc : x = c
        · subst hxc; rw [hf]; rfl
        · rw [hf] at hx
          simp only [buildPredictionRequest] at hx
          rw [if_neg hxc] at hx
          exact h x hx

lemma stepEvent_keeps_inv (s : ProcState) (e : StreamEvent)
    (h : ProcessedHasScreening s) : ProcessedHasScreening (stepEvent s e).1 := by
  cases e with
  | reading v =>
    simp only [stepEvent]
    have h1 : ProcessedHasScreening
        { s with latest_vitals := fun c => if c = v.case_id then some v else s.latest_vitals c } :=
      fun x hx => h x hx
    by_cases hu : s.processed_cases v.case_id = true
    · rw [if_pos hu]
      apply processCase_keeps_inv
      intro x hx
      by_cases hxc : x = v.case_id
      · subst hxc
        simp at hx
      · simp only [if_neg hxc] at hx
        exact h x hx
    · rw [if_neg hu]
      exact processCase_keeps_inv _ _ h1
  | screening f =>
    simp only [stepEvent]
    have h1 : ProcessedHasScreening
        { s with latest_fast_exam := fun c => if c = f.case_id then some f else s.latest_fast_exam c } := by
      intro x hx
      by_cases hxc : x = f.case_id
      · subst hxc
        simp
      · simp only [if_neg hxc]
        exact h x hx
    split
    · exact processCase_keeps_inv _ _ (processCase_keeps_inv _ _ h1)
    · exact processCase_keeps_inv _ _ h1
  | capacity cap =>
    exact fun x hx => h x hx

lemma runEvents_keeps_inv (es : List StreamEvent) :
    ∀ (s : ProcState), ProcessedHasScreening s → ProcessedHasScreening (runEvents s es).1 := by
  induction es with
  | nil => intro s h; exact h
  | cons e es ih =>
    intro s h
    exact ih _ (stepEvent_keeps_inv s e h)

lemma reachable_inv (s : ProcState) (h : Reachable s) : ProcessedHasScreening s := by
  obtain ⟨es, rfl⟩ := h
  exact runEvents_keeps_inv es initState (fun c hc => by cases hc)

/-- C3: an evaluation (prediction build-and-emit) for a case only ever
happens when both a current Reading and a current ScreeningResult exist
for it — and conversely, whenever a not-yet-processed case has both, a
`_process_case` call evaluates it, with no condition whatsoever on the
capacity cache (which may be empty): a CapacitySnapshot is never
required. -/
theorem evaluation_requires_current_reading_and_screening :
    (∀ (s : ProcState) (e : StreamEvent) (c : String), c ∈ (stepEvent s e).2 →
      ((stepEvent s e).1.latest_vitals c).isSome ∧
      ((stepEvent s e).1.latest_fast_exam c).isSome) ∧
    (∀ (s : ProcState) (c : String), s.processed_cases c = false →
      (s.latest_vitals c).isSome → (s.latest_fast_exam c).isSome →
      (processCase s c).2 = [c]) := by
  constructor
  · intro s e c hmem
    cases e with
    | reading v =>
      simp only [stepEvent] at hmem ⊢
      by_cases hu : s.processed_cases v.case_id = true
      · rw [if_pos hu] at hmem ⊢
        obtain ⟨hc, hp, hv, hf⟩ := processCase_mem _ _ _ hmem
        subst hc
        rw [(processCase_fields _ _).1, (processCase_fields _ _).2.1]
        exact ⟨hv, hf⟩
      · rw [if_neg hu] at hmem ⊢
        obtain ⟨hc, hp, hv, hf⟩ := processCase_mem _ _ _ hmem
        subst hc
        rw [(processCase_fields _ _).1, (processCase_fields _ _).2.1]
        exact ⟨hv, hf⟩
    | screening f =>
      have hfieldsv : (stepEvent s (StreamEvent.screening f)).1.latest_vitals =
          s.latest_vitals := by
        simp only [stepEvent]
        split
        · rw [(processCase_fields _ _).1, (processCase_fields _ _).1]
        · rw [(processCase_fields _ _).1]
      have hfieldsf : (stepEvent s (StreamEvent.screening f)).1.latest_fast_exam =
          fun c => if c = f.case_id then some f else s.latest_fast_exam c := by
        simp only [stepEvent]
        split
        · rw [(processCase_fields _ _).2.1, (processCase_fields _ _).2.1]
        · rw [(processCase_fields _ _).2.1]
      rw [hfieldsv, hfieldsf]
      simp only [stepEvent] at hmem
      rcases List.mem_append.mp hmem with h1 | h2
      · split at h1
        · obtain ⟨hc, hp, hv, hf⟩ := processCase_mem _ _ _ h1
          subst hc
          exact ⟨hv, by simp⟩
        · cases h1
      · obtain ⟨hc, hp, hv, hf⟩ := processCase_mem _ _ _ h2
        subst hc
        refine ⟨?_, by simp⟩
        revert hv
        split
        · intro hv
          rw [(processCase_fields _ _).1] at hv
          exact hv
        · intro hv
          exact hv
    | capacity cap => cases hmem
  · intro s c hp hv hf
    exact (processCase_emits s c hp hv hf).1

/-- C5: for a reachable processor state, re-sending a Reading for an
already-evaluated case triggers exactly one new evaluation within that
same loop iteration; any evaluation triggered by a ScreeningResult is for
a case not yet evaluated; and a CapacitySnapshot triggers no evaluation
at all (its loop branch sets no case id). -/
theorem reading_retriggers_screening_capacity_do_not :
    (∀ (s : ProcState), Reachable s → ∀ (v : EmsVitalsEvent),
      s.processed_cases v.case_id = true →
      (stepEvent s (StreamEvent.reading v)).2 = [v.case_id]) ∧
    (∀ (s : ProcState) (f : EmsFastExamEvent) (c : String),
      c ∈ (stepEvent s (StreamEvent.screening f)).2 → s.processed_cases c = false) ∧
    (∀ (s : ProcState) (cap : HospitalCapacityEvent),
      (stepEvent s (StreamEvent.capacity cap)).2 = []) := by
  refine ⟨?_, ?_, fun s cap => rfl⟩
  · intro s hreach v hp
    have hinv := reachable_inv s hreach
    simp only [stepEvent]
    rw [if_pos hp]
    apply (processCase_emits _ _ ?_ ?_ ?_).1
    · simp
    · simp
    · simpa using hinv v.case_id hp
  · intro s f c hmem
    simp only [stepEvent] at hmem
    rcases List.mem_append.mp hmem with h1 | h2
    · split at h1
      · obtain ⟨hc, hp, _, _⟩ := processCase_mem _ _ _ h1
        subst hc
        exact hp
      · cases h1
    · obtain ⟨hc, hp, _, _⟩ := processCase_mem _ _ _ h2
      subst hc
      revert hp
      split
      · intro hp
        exact processCase_processed_false
          { s with latest_fast_exam :=
              fun c => if c = f.case_id then some f else s.latest_fast_exam c }
          f.case_id f.case_id hp
      · intro hp
        exact hp

/-- C1 (code bug): no branch of the run loop ever touches the trend
analyzer's history — `TrendAnalyzer.add_vital_snapshot` is never called —
so ingesting a Reading leaves the case's trend window unchanged (and in
particular a first Reading for a case leaves it empty instead of
appending the reading). -/
theorem vitalHistory_never_updated :
    (∀ (s : ProcState) (e : StreamEvent),
      (stepEvent s e).1.vital_history = s.vital_history) ∧
    (stepEvent initState
      (StreamEvent.reading { case_id := "CASE-1" })).1.vital_history "CASE-1" = [] := by
  have hstep : ∀ (s : ProcState) (e : StreamEvent),
      (stepEvent s e).1.vital_history = s.vital_history := by
    intro s e
    cases e with
    | reading v =>
      simp only [stepEvent]
      by_cases hu : s.processed_cases v.case_id = true
      · rw [if_pos hu]
        exact (processCase_fields _ _).2.2.2
      · rw [if_neg hu]
        exact (processCase_fields _ _).2.2.2
    | screening f =>
      simp only [stepEvent]
      split
      · rw [(processCase_fields _ _).2.2.2, (processCase_fields _ _).2.2.2]
      · rw [(processCase_fields _ _).2.2.2]
    | capacity cap => rfl
  exact ⟨hstep, by rw [hstep]; rfl⟩

/-- C3 witness: with a current reading and screening present, an empty
capacity cache, and the case unprocessed, `_process_case` emits exactly
one evaluation. -/
theorem evaluation_requires_witness :
    (processCase sReady "CASE-1").2 = ["CASE-1"] :=
  evaluation_requires_current_reading_and_screening.2 sReady "CASE-1" rfl (by decide) (by decide)

/-- C5 witness: after a reading and a screening result for CASE-1 have
been ingested (so the case is evaluated), re-sending the reading emits
exactly one new evaluation in that step. -/
theorem reading_retriggers_witness :
    (stepEvent (runEvents initState
        [StreamEvent.reading { case_id := "CASE-1" },
         StreamEvent.screening { case_id := "CASE-1" }]).1
      (StreamEvent.reading { case_id := "CASE-1" })).2 = ["CASE-1"] :=
  reading_retriggers_screening_capacity_do_not.1 _ ⟨_, rfl⟩
    { case_id := "CASE-1" } (by decide)

/-- C6 counterexample: with the LVO flag set, a known comprehensive
facility, and a comprehensive travel estimate of 0 ≤ 8 + 15, the claim
requires the comprehensive facility, but the code routes to the primary
one: the Python truthiness test `if ... and comp_travel:` treats the
present-but-zero estimate like an absent one. -/
theorem chooseHospital_zero_travel_counterexample :
    reqZeroCompTravel.ems_suspected_lvo = true ∧
    (twoTierCaps.find? (fun c => c.stroke_center_level == "COMPREHENSIVE")).map (·.hospital_id)
      = some "HOSP-COMP-01" ∧
    reqZeroCompTravel.estimated_travel_min_to_comprehensive_center = some 0 ∧
    reqZeroCompTravel.estimated_travel_min_to_primary_center = some 8 ∧
    ((0 : Int) ≤ 8 + 15) ∧
    chooseHospital reqZeroCompTravel twoTierCaps =
      (some "HOSP-PRIMARY-01", some "PRIMARY_CENTER", some 8, none) :=
  ⟨rfl, by decide, rfl, rfl, by decide, by decide⟩

/-- C6 (amended): facility selection returns the comprehensive facility
iff the LVO flag is set, a comprehensive facility is known with a
non-empty identifier, its travel estimate is known and nonzero, and that
estimate is ≤ the primary's + 15 (or the primary's estimate is unknown);
otherwise the primary facility when known with a non-empty identifier;
otherwise no recommendation — in particular `lvo_suspected = false`
always yields the primary facility (when known) regardless of the
comprehensive travel time. -/
theorem chooseHospital_characterization (request : AiPredictionRequest)
    (capacity_events : List HospitalCapacityEvent) :
    (routesToComprehensive request capacity_events = true →
      chooseHospital request capacity_events =
        ((capacity_events.find?
            (fun c => c.stroke_center_level == "COMPREHENSIVE")).map (·.hospital_id),
         some "COMPREHENSIVE_CENTER",
         request.estimated_travel_min_to_comprehensive_center,
         request.comprehensive_center_additional_door_to_needle_min)) ∧
    (routesToComprehensive request capacity_events = false →
      truthyStr ((capacity_events.find?
        (fun c => c.stroke_center_level == "PRIMARY")).map (·.hospital_id)) = true →
      chooseHospital request capacity_events =
        ((capacity_events.find?
            (fun c => c.stroke_center_level == "PRIMARY")).map (·.hospital_id),
         some "PRIMARY_CENTER",
         request.estimated_travel_min_to_primary_center,
         request.primary_center_additional_door_to_needle_min)) ∧
    (routesToComprehensive request capacity_events = false →
      truthyStr ((capacity_events.find?
        (fun c => c.stroke_center_level == "PRIMARY")).map (·.hospital_id)) = false →
      chooseHospital request capacity_events = (none, none, none, none)) ∧
    (request.ems_suspected_lvo = false →
      truthyStr ((capacity_events.find?
        (fun c => c.stroke_center_level == "PRIMARY")).map (·.hospital_id)) = true →
      chooseHospital request capacity_events =
        ((capacity_events.find?
            (fun c => c.stroke_center_level == "PRIMARY")).map (·.hospital_id),
         some "PRIMARY_CENTER",
         request.estimated_travel_min_to_primary_center,
         request.primary_center_additional_door_to_needle_min)) := by
  refine ⟨?_, ?_, ?_, ?_⟩
  · intro h
    unfold routesToComprehensive at h
    simp only [Bool.and_eq_true] at h
    obtain ⟨⟨⟨ha, hb⟩, hc⟩, hd⟩ := h
    unfold chooseHospital
    rw [if_pos (by simp [ha, hb, hc]), if_pos hd]
  · intro h hp
    unfold routesToComprehensive at h
    unfold chooseHospital
    by_cases houter : (request.ems_suspected_lvo &&
        truthyStr ((capacity_events.find?
          (fun c => c.stroke_center_level == "COMPREHENSIVE")).map (·.hospital_id)) &&
        truthyInt request.estimated_travel_min_to_comprehensive_center) = true
    · rw [if_pos houter]
      rw [Bool.and_eq_false_iff] at h
      rcases h with h | h
      · rw [houter] at h
        cases h
      · rw [if_neg (by simp [h]), if_pos hp]
    · rw [if_neg houter, if_pos hp]
  · intro h hp
    unfold routesToComprehensive at h
    unfold chooseHospital
    by_cases houter : (request.ems_suspected_lvo &&
        truthyStr ((capacity_events.find?
          (fun c => c.stroke_center_level == "COMPREHENSIVE")).map (·.hospital_id)) &&
        truthyInt request.estimated_travel_min_to_comprehensive_center) = true
    · rw [if_pos houter]
      rw [Bool.and_eq_false_iff] at h
      rcases h with h | h
      · rw [houter] at h
        cases h
      · rw [if_neg (by simp [h]), if_neg (by simp [hp])]
    · rw [if_neg houter, if_neg (by simp [hp])]
  · intro h hp
    unfold chooseHospital
    rw [if_neg (by simp [h]), if_pos hp]

/-- C6 witness: LVO suspected, comprehensive estimate 15 ≤ 8 + 15 — the
comprehensive facility is selected. -/
theorem chooseHospital_characterization_witness :
    chooseHospital reqLvoCompTravel twoTierCaps =
      (some "HOSP-COMP-01", some "COMPREHENSIVE_CENTER", some 15, none) :=
  (chooseHospital_characterization reqLvoCompTravel twoTierCaps).1 (by decide)


end NeuroPulse
